import Mathlib

/-!
Shallow embedding of the authentication, caching and contact-access core of
the goit-pythonweb-hw-012 contacts backend (FastAPI + SQLAlchemy + Redis),
together with proofs about the embedded operations.

Conventions of the embedding:
* async database queries become pure functions over an explicit `DB` state
  (a list of user rows and a list of contact rows);
* the Redis cache becomes an explicit association list with absolute expiry
  timestamps; time is a `Nat` (seconds);
* Python exceptions (`HTTPException`, passlib digest errors, the
  `AttributeError` raised by touching an attribute of `None`) become
  `Except` results;
* every function that can touch the relational store also returns the list
  of store queries it performed, so that frame properties ("the store is not
  consulted") are provable statements rather than meta-level observations.
-/

namespace ContactsApp

/-- Role enumeration from src/database/models.py (`UserRole`). -/
inductive UserRole where
  | USER
  | ADMIN
deriving DecidableEq, Repr

/-- Calendar date; `Contact.birthday` is a SQL `Date`. -/
structure Date where
  year : Nat
  month : Nat
  day : Nat
deriving DecidableEq, Repr

/-- User row from src/database/models.py (`User`); timestamp columns omitted
as no modelled operation reads them. -/
structure User where
  id : Nat
  username : String
  email : String
  hashed_password : String
  avatar : Option String
  confirmed : Bool
  role : UserRole
deriving DecidableEq, Repr

/-- Contact row from src/database/models.py (`Contact`). -/
structure Contact where
  id : Nat
  first_name : String
  last_name : String
  email : String
  phone_number : String
  birthday : Date
  additional_data : Option String
  user_id : Nat
deriving DecidableEq, Repr

/-- The relational store: the `users` and `contacts` tables. -/
structure DB where
  users : List User
  contacts : List Contact
deriving DecidableEq, Repr

/-- Request body for contact update from src/schemas/contacts.py
(`ContactBase`); `Option` encodes fields absent from the request, matching
the `exclude_unset=True` dump used by `update_contact`. -/
structure ContactBase where
  first_name : Option String
  last_name : Option String
  email : Option String
  phone_number : Option String
  birthday : Option Date
  additional_data : Option String
deriving DecidableEq, Repr

/-- An HTTP error outcome (`HTTPException(status_code, detail)`). -/
structure HttpError where
  status : Nat
  detail : String
deriving DecidableEq, Repr

/-- Message constant from src/conf/messages.py. -/
def CONTACT_NOT_FOUND : String := "Contact not found"

/-- Message constant from src/conf/messages.py. -/
def API_ERROR_WRONG_PASSWORD : String := "Неправильний логін або пароль"

/-- Message constant from src/conf/messages.py. -/
def API_ERROR_USER_NOT_AUTHORIZED : String := "Електронна адреса не підтверджена"

/-! ## Contact repository (src/repository/contacts.py) -/

/-- `ContactRepository.get_contact_by_id`: the query
`select(Contact).filter_by(user=user, id=contact_id)` followed by
`scalar_one_or_none()`. The ORM identity filter `user=user` compiles to a
filter on the foreign key `user_id == user.id`. -/
def get_contact_by_id (contact_id : Nat) (user : User) (db : DB) : Option Contact :=
  db.contacts.find? (fun c => c.user_id == user.id && c.id == contact_id)

/-- `ContactRepository.remove_contact`: looks the contact up with
`get_contact_by_id` (same owner filter); when found, deletes that row and
returns it, otherwise leaves the store unchanged and returns `none`. -/
def remove_contact (contact_id : Nat) (user : User) (db : DB) :
    Option Contact × DB :=
  match get_contact_by_id contact_id user db with
  | none => (none, db)
  | some c => (some c, { db with contacts := db.contacts.filter (fun x => x.id != c.id) })

/-- Application of the `setattr` loop of `ContactRepository.update_contact`:
each field present in the request body overwrites the row field; `id` and
`user_id` are never in the body and stay unchanged. -/
def applyContactBase (body : ContactBase) (c : Contact) : Contact :=
  { c with
    first_name := body.first_name.getD c.first_name
    last_name := body.last_name.getD c.last_name
    email := body.email.getD c.email
    phone_number := body.phone_number.getD c.phone_number
    birthday := body.birthday.getD c.birthday
    additional_data := match body.additional_data with
      | some v => some v
      | none => c.additional_data }

/-- `ContactRepository.update_contact`: looks the contact up with
`get_contact_by_id` (same owner filter); when found, applies the body fields
to that row, commits the updated row and returns it; otherwise returns
`none` and leaves the store unchanged. -/
def update_contact (contact_id : Nat) (body : ContactBase) (user : User) (db : DB) :
    Option Contact × DB :=
  match get_contact_by_id contact_id user db with
  | none => (none, db)
  | some c =>
      let c2 := applyContactBase body c
      (some c2, { db with contacts := db.contacts.map (fun x => if x.id == c.id then c2 else x) })

/-! ## Contact API routes (src/api/contacts.py) -/

/-- Route `GET /contacts/{contact_id}` (`read_contact`): a `none` from the
repository becomes `HTTPException(404, CONTACT_NOT_FOUND)`. -/
def api_read_contact (contact_id : Nat) (user : User) (db : DB) :
    Except HttpError Contact :=
  match get_contact_by_id contact_id user db with
  | none => .error ⟨404, CONTACT_NOT_FOUND⟩
  | some c => .ok c

/-- Route `PUT /contacts/{contact_id}` (`update_contact` route): a `none`
from the repository becomes `HTTPException(404, CONTACT_NOT_FOUND)`. -/
def api_update_contact (contact_id : Nat) (body : ContactBase) (user : User) (db : DB) :
    Except HttpError Contact × DB :=
  match update_contact contact_id body user db with
  | (none, db2) => (.error ⟨404, CONTACT_NOT_FOUND⟩, db2)
  | (some c, db2) => (.ok c, db2)

/-- Route `DELETE /contacts/{contact_id}` (`remove_contact` route): a `none`
from the repository becomes `HTTPException(404, CONTACT_NOT_FOUND)`. -/
def api_remove_contact (contact_id : Nat) (user : User) (db : DB) :
    Except HttpError Unit × DB :=
  match remove_contact contact_id user db with
  | (none, db2) => (.error ⟨404, CONTACT_NOT_FOUND⟩, db2)
  | (some _, db2) => (.ok (), db2)

/-! ## Credential hasher (src/services/auth.py, class Hash)

The hasher delegates to a bcrypt `CryptContext`. The context is modelled
with a fixed salt: a digest is the bcrypt marker followed by the plaintext
it hashes, so `verify` compares digests exactly as bcrypt does for a fixed
salt. `CryptContext.verify` raises `UnknownHashError` when the digest
cannot be identified as a bcrypt digest; the model returns that as an
`Except.error`, which the callers in src propagate (no handler exists). -/

/-- Error raised by passlib when a digest string cannot be identified. -/
inductive HashError where
  | unknownHash
deriving DecidableEq, Repr

/-- The bcrypt format marker that opens every bcrypt digest. -/
def bcryptMarker : List Char :=
  ['$', '2', 'b', '$', '1', '2', '$']

/-- `Hash.get_password_hash`: produces a bcrypt digest of the plaintext
(fixed-salt model of `CryptContext.hash`): the format marker followed by
the (salted, encrypted) payload, which the fixed-salt model leaves as the
plaintext characters. -/
def get_password_hash (password : String) : String :=
  ⟨bcryptMarker ++ password.data⟩

/-- Digest identification step of the bcrypt `CryptContext`: a string is a
recognisable digest exactly when it opens with the bcrypt format marker. -/
def identifiableDigest (digest : String) : Bool :=
  bcryptMarker.isPrefixOf digest.data

/-- `Hash.verify_password`: `self.pwd_context.verify(plain, hashed)`. For an
identifiable digest it returns whether the digest matches the plaintext;
for a malformed digest the underlying context raises `UnknownHashError`,
which this method does not catch. -/
def verify_password (plain_password hashed_password : String) :
    Except HashError Bool :=
  if identifiableDigest hashed_password then
    .ok (hashed_password == get_password_hash plain_password)
  else
    .error .unknownHash

/-! ## Token service (src/services/auth.py)

JWTs are modelled as records carrying their payload together with the
secret and algorithm they were signed with; `jwt.decode` checks that the
supplied secret and algorithm match the signature and that the token is not
expired (RFC 7519: a token is rejected on or after its `exp` time), and
otherwise yields the payload. The process-wide configuration object
(`settings` from src/conf/config.py, and the `app_config` name used by the
reset-token functions) is not under src/; it is modelled from the spec as
one configuration record with a shared secret, an algorithm, and the two
independent expiries. -/

/-- Modelled from the spec: the configuration module src/conf/config.py is
absent from the sources; per the spec the Token Service consumes a shared
secret and algorithm configured process-wide, a default access-token ttl,
and a distinct reset-token ttl. -/
structure Settings where
  JWT_SECRET : String
  JWT_ALGORITHM : String
  JWT_EXPIRATION_SECONDS : Nat
  RESET_TOKEN_EXPIRY : Nat
deriving DecidableEq, Repr

/-- Payload of a JWT: subject, expiry and issued-at claims as used by this
codebase. A `none` subject covers both an absent and a null `sub` claim. -/
structure JwtPayload where
  sub : Option String
  exp : Option Nat
  iat : Option Nat
deriving DecidableEq, Repr

/-- A signed token: the payload plus the secret and algorithm that signed
it (standing in for the signature). -/
structure Jwt where
  payload : JwtPayload
  secret : String
  alg : String
deriving DecidableEq, Repr

/-- Decoding failure of the jose library (`JWTError`, including
`ExpiredSignatureError`). -/
inductive JwtDecodeError where
  | badSignature
  | expired
deriving DecidableEq, Repr

/-- Model of `jwt.encode(claims, secret, algorithm)`. -/
def jwtEncode (payload : JwtPayload) (secret alg : String) : Jwt :=
  ⟨payload, secret, alg⟩

/-- Model of `jwt.decode(token, secret, algorithms=[alg])` at time `now`:
signature check then expiry check (per RFC 7519 the token is invalid once
`now ≥ exp`), then the payload is returned. -/
def jwtDecode (t : Jwt) (secret alg : String) (now : Nat) :
    Except JwtDecodeError JwtPayload :=
  if t.secret = secret ∧ t.alg = alg then
    match t.payload.exp with
    | some e => if now < e then .ok t.payload else .error .expired
    | none => .ok t.payload
  else
    .error .badSignature

/-- `create_access_token(data, expires_delta)` issued at time `now` with
subject `sub` (the call sites pass `data = {"sub": username}`). A falsy
`expires_delta` (absent or zero) selects the configured default expiry,
matching the Python truthiness test. -/
def create_access_token (sub : String) (expires_delta : Option Nat)
    (now : Nat) (s : Settings) : Jwt :=
  let expire :=
    match expires_delta with
    | some d => if d == 0 then now + s.JWT_EXPIRATION_SECONDS else now + d
    | none => now + s.JWT_EXPIRATION_SECONDS
  jwtEncode ⟨some sub, some expire, none⟩ s.JWT_SECRET s.JWT_ALGORITHM

/-- `create_reset_token(email)` issued at time `now`: subject and an expiry
`RESET_TOKEN_EXPIRY` seconds ahead. -/
def create_reset_token (email : String) (now : Nat) (s : Settings) : Jwt :=
  jwtEncode ⟨some email, some (now + s.RESET_TOKEN_EXPIRY), none⟩
    s.JWT_SECRET s.JWT_ALGORITHM

/-- `verify_reset_token(token)` at time `now`: decode and return the
subject claim; any `JWTError` becomes `none`. -/
def verify_reset_token (t : Jwt) (now : Nat) (s : Settings) : Option String :=
  match jwtDecode t s.JWT_SECRET s.JWT_ALGORITHM now with
  | .ok payload => payload.sub
  | .error _ => none

/-- `create_email_token(data)` issued at time `now` with subject `sub`:
fixed 7-day expiry and an issued-at claim. -/
def create_email_token (sub : String) (now : Nat) (s : Settings) : Jwt :=
  jwtEncode ⟨some sub, some (now + 7 * 24 * 60 * 60), some now⟩
    s.JWT_SECRET s.JWT_ALGORITHM

/-- `get_email_from_token(token)` at time `now`: decode and return the
subject; any `JWTError` becomes `HTTPException(422, ...)`. -/
def get_email_from_token (t : Jwt) (now : Nat) (s : Settings) :
    Except HttpError (Option String) :=
  match jwtDecode t s.JWT_SECRET s.JWT_ALGORITHM now with
  | .ok payload => .ok payload.sub
  | .error _ =>
      .error ⟨422, "Невірний токен для перевірки електронної пошти"⟩

/-- Verification step for access tokens, as performed at the top of
`get_current_user`: decode, then read the subject; a `JWTError` yields no
subject. -/
def decode_access_token (t : Jwt) (now : Nat) (s : Settings) : Option String :=
  match jwtDecode t s.JWT_SECRET s.JWT_ALGORITHM now with
  | .ok payload => payload.sub
  | .error _ => none

/-- Expiry claim of a token (every issued token carries one). -/
def tokenExp (t : Jwt) : Nat :=
  t.payload.exp.getD 0

/-! ## User cache (Redis) and user store lookups

The Redis client (src/database/redis.py) is not under src/; per the spec it
is a plain key/value store with `get` and `setex(key, ttl_seconds, value)`
and no transactions, modelled as an association list of entries with
absolute expiry times. The JSON dict payloads are modelled as a record of
the fields the two writers store: `login_user` caches
`{username, email, hashed_password}` under key `user:<email>`, and
`get_current_user` caches `{id, username, email}` under key
`user:<username>`; fields a writer does not store are `none`. -/

/-- A deserialised cache payload (the JSON dict). -/
structure CacheValue where
  id : Option Nat
  username : String
  email : String
  hashed_password : Option String
deriving DecidableEq, Repr

/-- One cache entry: key, payload, absolute expiry time. -/
structure CacheEntry where
  key : String
  val : CacheValue
  expiresAt : Nat
deriving DecidableEq, Repr

/-- The cache state. -/
abbrev Cache : Type := List CacheEntry

/-- Modelled from the spec: Redis `get` — the stored value when the key is
present and its ttl has not elapsed, otherwise a miss. -/
def cacheGet (c : Cache) (key : String) (now : Nat) : Option CacheValue :=
  match c.find? (fun e => e.key == key) with
  | some e => if now < e.expiresAt then some e.val else none
  | none => none

/-- Modelled from the spec: Redis `setex key ttl value` — stores the value
under the key with expiry `now + ttl`, replacing any previous entry. -/
def cacheSetex (c : Cache) (key : String) (ttl : Nat) (v : CacheValue)
    (now : Nat) : Cache :=
  ⟨key, v, now + ttl⟩ :: c.filter (fun e => e.key != key)

/-- A query issued to the relational store (`users` table lookups). -/
inductive StoreQuery where
  | byEmail (email : String)
  | byUsername (username : String)
deriving DecidableEq, Repr

/-- `UserRepository.get_user_by_email` via `UserService`. -/
def get_user_by_email (email : String) (db : DB) : Option User :=
  db.users.find? (fun u => u.email == email)

/-- `UserRepository.get_user_by_username` via `UserService`. -/
def get_user_by_username (username : String) (db : DB) : Option User :=
  db.users.find? (fun u => u.username == username)

/-- `UserRepository.update_password`: loads the user by email and overwrites
its `hashed_password` column. Only the `users` table is touched; the cache
is not an argument of this operation at all. -/
def update_password (email : String) (new_password : String) (db : DB) : DB :=
  let setPw : User → User :=
    fun u => if u.email == email then { u with hashed_password := new_password } else u
  { db with users := db.users.map setPw }

/-! ## Login route (src/api/auth.py, `login_user`) -/

/-- Login request body (`UserLogin`). -/
structure UserLogin where
  email : String
  password : String
deriving DecidableEq, Repr

/-- Successful login response: the bearer token. -/
structure Token where
  access_token : Jwt
  token_type : String
deriving DecidableEq, Repr

/-- Result of the login route together with its side effects: the HTTP
outcome, the cache after the request, and the store queries performed. -/
structure LoginOut where
  result : Except HttpError Token
  cache : Cache
  queries : List StoreQuery
deriving Repr

/-- Route `POST /auth/login` (`login_user`), at time `now` with
configuration `s`. Hot path: a live cache entry under `user:<email>` is
checked against the request password (a missing `hashed_password` key in
the cached dict would be a `KeyError`, surfaced as a 500); on a match a
fresh access token is issued with no store query at all, and nothing — not
even the `confirmed` flag — is read from the store. Cold path: load by
email from the store; an existing-but-unconfirmed user is rejected 401
unauthorized (this check comes first in the source), an absent user or a
password mismatch is rejected 401 wrong-password, and on success the
snapshot `{username, email, hashed_password}` is cached for 3600 s and a
token is issued. -/
def login_user (body : UserLogin) (db : DB) (cache : Cache) (now : Nat)
    (s : Settings) : LoginOut :=
  match cacheGet cache ("user:" ++ body.email) now with
  | some cu =>
      match cu.hashed_password with
      | none => ⟨.error ⟨500, "Internal Server Error"⟩, cache, []⟩
      | some hp =>
          match verify_password body.password hp with
          | .error _ => ⟨.error ⟨500, "Internal Server Error"⟩, cache, []⟩
          | .ok false =>
              ⟨.error ⟨401, API_ERROR_WRONG_PASSWORD⟩, cache, []⟩
          | .ok true =>
              ⟨.ok ⟨create_access_token cu.username none now s, "bearer"⟩,
                cache, []⟩
  | none =>
      let qs := [StoreQuery.byEmail body.email]
      match get_user_by_email body.email db with
      | some u =>
          if u.confirmed = false then
            ⟨.error ⟨401, API_ERROR_USER_NOT_AUTHORIZED⟩, cache, qs⟩
          else
            match verify_password body.password u.hashed_password with
            | .error _ => ⟨.error ⟨500, "Internal Server Error"⟩, cache, qs⟩
            | .ok false =>
                ⟨.error ⟨401, API_ERROR_WRONG_PASSWORD⟩, cache, qs⟩
            | .ok true =>
                ⟨.ok ⟨create_access_token u.username none now s, "bearer"⟩,
                  cacheSetex cache ("user:" ++ u.email) 3600
                    ⟨none, u.username, u.email, some u.hashed_password⟩ now,
                  qs⟩
      | none => ⟨.error ⟨401, API_ERROR_WRONG_PASSWORD⟩, cache, qs⟩

/-! ## Authentication gate (src/services/auth.py, `get_current_user` and
`get_current_admin_user`) -/

/-- The identity value the gate hands to the downstream handler: on the
cached path it is the deserialised dict, on the store path the ORM row. -/
inductive CurrentUser where
  | fromCache (v : CacheValue)
  | fromStore (u : User)
deriving DecidableEq, Repr

/-- Result of the gate together with its side effects. -/
structure GateOut where
  result : Except HttpError CurrentUser
  cache : Cache
  queries : List StoreQuery
deriving Repr

/-- The 401 raised by `get_current_user` on any credential failure. -/
def credentials_exception : HttpError :=
  ⟨401, "Could not validate credentials"⟩

/-- Dependency `get_current_user`, at time `now` with configuration `s`.
Source order: decode the JWT (failure or a null subject → 401); query the
store by username and raise 401 when absent; only then consult the cache
under `user:<username>` and, on a hit, return the cached dict; on a miss,
query the store by username a second time (401 when absent) and cache the
snapshot `{id, username, email}` for 3600 s, returning the ORM row. -/
def get_current_user (t : Jwt) (db : DB) (cache : Cache) (now : Nat)
    (s : Settings) : GateOut :=
  match decode_access_token t now s with
  | none => ⟨.error credentials_exception, cache, []⟩
  | some username =>
      match get_user_by_username username db with
      | none => ⟨.error credentials_exception, cache, [.byUsername username]⟩
      | some _ =>
          match cacheGet cache ("user:" ++ username) now with
          | some cu =>
              ⟨.ok (.fromCache cu), cache, [.byUsername username]⟩
          | none =>
              match get_user_by_username username db with
              | none =>
                  ⟨.error credentials_exception, cache,
                    [.byUsername username, .byUsername username]⟩
              | some u =>
                  ⟨.ok (.fromStore u),
                    cacheSetex cache ("user:" ++ username) 3600
                      ⟨some u.id, u.username, u.email, none⟩ now,
                    [.byUsername username, .byUsername username]⟩

/-- Dependency `get_current_admin_user`: rejects a non-admin identity with
`HTTPException(403, ...)` and passes an admin identity through unchanged. -/
def get_current_admin_user (current_user : User) : Except HttpError User :=
  if current_user.role ≠ UserRole.ADMIN then
    .error ⟨403, "Недостатньо прав доступу"⟩
  else
    .ok current_user

/-! ## Reset-password route (src/api/auth.py, `reset_password`) -/

/-- Request body `PasswordResetConfirm`. -/
structure PasswordResetConfirm where
  token : Jwt
  new_password : String
deriving Repr

/-- Result of the reset-password route together with its side effects. -/
structure ResetOut where
  result : Except HttpError String
  db : DB
  cache : Cache
  queries : List StoreQuery
deriving Repr

/-- Route `POST /auth/reset_password` at time `now`: verify the reset token
(400 on failure), look the user up by the token subject (404 when absent),
hash the new password and overwrite the store row. The cache is not an
input of any step after token verification; no invalidation exists. -/
def reset_password (body : PasswordResetConfirm) (db : DB) (cache : Cache)
    (now : Nat) (s : Settings) : ResetOut :=
  match verify_reset_token body.token now s with
  | none => ⟨.error ⟨400, "Invalid or expired token"⟩, db, cache, []⟩
  | some email =>
      match get_user_by_email email db with
      | none => ⟨.error ⟨404, "User not found"⟩, db, cache, [.byEmail email]⟩
      | some _ =>
          ⟨.ok "Password successfully reset",
            update_password email (get_password_hash body.new_password) db,
            cache, [.byEmail email]⟩

/-! ## Request-email route (src/api/auth.py, `request_email`) -/

/-- Unhandled Python failure surfaced by a route as an internal 500. -/
inductive PyFailure where
  | attributeErrorOnNone
deriving DecidableEq, Repr

/-- Route `POST /auth/request_email`: the source reads `user.confirmed`
straight after the store lookup and only afterwards tests `if user:`, so
when no user matches the email the attribute read on `None` raises an
unhandled `AttributeError`. The boolean in the success value records
whether a confirmation email task was queued. -/
def request_email (email : String) (db : DB) :
    Except PyFailure (String × Bool) :=
  match get_user_by_email email db with
  | none => .error .attributeErrorOnNone
  | some u =>
      if u.confirmed then
        .ok ("Ваша електронна пошта вже підтверджена", false)
      else
        .ok ("Перевірте свою електронну пошту для підтвердження", true)

/-! ## Date arithmetic and the birthday query
(src/repository/contacts.py, `upcoming_birthdays`) -/

/-- Gregorian leap-year rule. -/
def isLeapYear (y : Nat) : Bool :=
  (y % 4 == 0 && y % 100 != 0) || y % 400 == 0

/-- Number of days of month `m` of year `y`. -/
def daysInMonth (y m : Nat) : Nat :=
  if m == 2 then (if isLeapYear y then 29 else 28)
  else if m == 4 || m == 6 || m == 9 || m == 11 then 30
  else 31

/-- The calendar day after `d`. -/
def nextDay (d : Date) : Date :=
  if d.day < daysInMonth d.year d.month then ⟨d.year, d.month, d.day + 1⟩
  else if d.month < 12 then ⟨d.year, d.month + 1, 1⟩
  else ⟨d.year + 1, 1, 1⟩

/-- `d + timedelta(days=n)`. -/
def addDays (d : Date) : Nat → Date
  | 0 => d
  | n + 1 => nextDay (addDays d n)

/-- A well-formed calendar date. -/
def ValidDate (d : Date) : Prop :=
  1 ≤ d.month ∧ d.month ≤ 12 ∧ 1 ≤ d.day ∧ d.day ≤ daysInMonth d.year d.month

/-- `ContactRepository.upcoming_birthdays`: contacts of the user whose
birthday satisfies the disjunction of the two month/day range conditions
of the SQL query — same month as today with day at or after today, or
same month as `today + days` with day at or before that date. -/
def upcoming_birthdays (days : Nat) (user : User) (today : Date) (db : DB) :
    List Contact :=
  let future := addDays today days
  db.contacts.filter (fun c =>
    c.user_id == user.id &&
    ((c.birthday.month == today.month && decide (today.day ≤ c.birthday.day)) ||
     (c.birthday.month == future.month && decide (c.birthday.day ≤ future.day))))

/-! # Theorems -/

/-! ## Claim C1: cross-owner contact access yields not-found -/

/-- C1. For distinct identities A and B and a contact owned by B (B owning
every row that shares its id, as the primary key guarantees), the read-one,
update and delete operations invoked by A with that contact id all return
the not-found outcome: the repository returns `none` and leaves the store
unchanged, and the API surfaces `404 Contact not found` — never a 403 and
never B-owned data. -/
theorem cross_owner_access_not_found
    (a b : User) (c : Contact) (db : DB) (body : ContactBase)
    (hab : a.id ≠ b.id)
    (hc : c ∈ db.contacts)
    (hown : c.user_id = b.id)
    (huniq : ∀ x ∈ db.contacts, x.id = c.id → x.user_id = b.id) :
    get_contact_by_id c.id a db = none ∧
    update_contact c.id body a db = (none, db) ∧
    remove_contact c.id a db = (none, db) ∧
    api_read_contact c.id a db = .error ⟨404, CONTACT_NOT_FOUND⟩ ∧
    api_update_contact c.id body a db = (.error ⟨404, CONTACT_NOT_FOUND⟩, db) ∧
    api_remove_contact c.id a db = (.error ⟨404, CONTACT_NOT_FOUND⟩, db) := by
  have hfind : get_contact_by_id c.id a db = none := by
    unfold get_contact_by_id
    apply List.find?_eq_none.mpr
    intro x hx
    simp only [Bool.and_eq_true, beq_iff_eq, not_and]
    intro hxa hxc
    exact hab (hxa.symm.trans (huniq x hx hxc))
  refine ⟨hfind, ?_, ?_, ?_, ?_, ?_⟩
  · unfold update_contact; rw [hfind]
  · unfold remove_contact; rw [hfind]
  · unfold api_read_contact; rw [hfind]
  · unfold api_update_contact update_contact; rw [hfind]
  · unfold api_remove_contact remove_contact; rw [hfind]

/-- Witness for C1 at a concrete store: user 1 requesting user 2's
contact 10. -/
theorem cross_owner_access_not_found_witness :
    let a : User := ⟨1, "alice", "alice@x.com", "h", none, true, .USER⟩
    let b : User := ⟨2, "bob", "bob@x.com", "h", none, true, .USER⟩
    let c : Contact := ⟨10, "Jo", "Doe", "jo@x.com", "123", ⟨1990, 5, 5⟩, none, 2⟩
    let db : DB := ⟨[a, b], [c]⟩
    get_contact_by_id 10 a db = none ∧
    api_read_contact 10 a db = .error ⟨404, CONTACT_NOT_FOUND⟩ := by
  intro a b c db
  have h := cross_owner_access_not_found a b c db
    ⟨none, none, none, none, none, none⟩
    (by decide) (by simp [db, c]) (by decide)
    (by intro x hx hid; simp only [db, List.mem_singleton] at hx; rw [hx])
  exact ⟨h.1, h.2.2.2.1⟩

/-! ## Claim C2: token round-trip with expiry for the three token kinds -/

/-- C2. For each of the three token kinds (access, email-confirmation,
password-reset) and every subject: verifying a token issued for that
subject returns exactly that subject while the current time is before the
token expiry, and returns the Invalid outcome of that kind (no subject for
access tokens, `none` for reset tokens, a 422 error for email tokens) once
the current time is at or past the expiry. -/
theorem token_round_trip (sub : String) (t0 now : Nat) (d : Option Nat)
    (s : Settings) :
    (now < tokenExp (create_access_token sub d t0 s) →
      decode_access_token (create_access_token sub d t0 s) now s = some sub) ∧
    (tokenExp (create_access_token sub d t0 s) ≤ now →
      decode_access_token (create_access_token sub d t0 s) now s = none) ∧
    (now < tokenExp (create_reset_token sub t0 s) →
      verify_reset_token (create_reset_token sub t0 s) now s = some sub) ∧
    (tokenExp (create_reset_token sub t0 s) ≤ now →
      verify_reset_token (create_reset_token sub t0 s) now s = none) ∧
    (now < tokenExp (create_email_token sub t0 s) →
      get_email_from_token (create_email_token sub t0 s) now s = .ok (some sub)) ∧
    (tokenExp (create_email_token sub t0 s) ≤ now →
      get_email_from_token (create_email_token sub t0 s) now s =
        .error ⟨422, "Невірний токен для перевірки електронної пошти"⟩) := by
  have key : ∀ (e n : Nat) (iat : Option Nat),
      (n < e →
        decode_access_token (jwtEncode ⟨some sub, some e, iat⟩
          s.JWT_SECRET s.JWT_ALGORITHM) n s = some sub ∧
        verify_reset_token (jwtEncode ⟨some sub, some e, iat⟩
          s.JWT_SECRET s.JWT_ALGORITHM) n s = some sub ∧
        get_email_from_token (jwtEncode ⟨some sub, some e, iat⟩
          s.JWT_SECRET s.JWT_ALGORITHM) n s = .ok (some sub)) ∧
      (e ≤ n →
        decode_access_token (jwtEncode ⟨some sub, some e, iat⟩
          s.JWT_SECRET s.JWT_ALGORITHM) n s = none ∧
        verify_reset_token (jwtEncode ⟨some sub, some e, iat⟩
          s.JWT_SECRET s.JWT_ALGORITHM) n s = none ∧
        get_email_from_token (jwtEncode ⟨some sub, some e, iat⟩
          s.JWT_SECRET s.JWT_ALGORITHM) n s =
          .error ⟨422, "Невірний токен для перевірки електронної пошти"⟩) := by
    intro e n iat
    constructor
    · intro h
      simp [decode_access_token, verify_reset_token, get_email_from_token,
        jwtDecode, jwtEncode, h]
    · intro h
      simp [decode_access_token, verify_reset_token, get_email_from_token,
        jwtDecode, jwtEncode, Nat.not_lt.mpr h]
  exact ⟨fun h => ((key _ now none).1 h).1,
    fun h => ((key _ now none).2 h).1,
    fun h => ((key _ now none).1 h).2.1,
    fun h => ((key _ now none).2 h).2.1,
    fun h => ((key _ now (some t0)).1 h).2.2,
    fun h => ((key _ now (some t0)).2 h).2.2⟩

/-- Witness for C2 at concrete subjects, times and configuration. -/
theorem token_round_trip_witness :
    decode_access_token
      (create_access_token "alice" (some 100) 0 ⟨"sec", "HS256", 3600, 900⟩)
      99 ⟨"sec", "HS256", 3600, 900⟩ = some "alice" ∧
    verify_reset_token
      (create_reset_token "alice" 0 ⟨"sec", "HS256", 3600, 900⟩)
      900 ⟨"sec", "HS256", 3600, 900⟩ = none ∧
    get_email_from_token
      (create_email_token "alice" 0 ⟨"sec", "HS256", 3600, 900⟩)
      604799 ⟨"sec", "HS256", 3600, 900⟩ = .ok (some "alice") :=
  ⟨(token_round_trip "alice" 0 99 (some 100) ⟨"sec", "HS256", 3600, 900⟩).1
      (by decide),
   (token_round_trip "alice" 0 900 (some 100) ⟨"sec", "HS256", 3600, 900⟩).2.2.2.1
      (by decide),
   (token_round_trip "alice" 0 604799 (some 100) ⟨"sec", "HS256", 3600, 900⟩).2.2.2.2.1
      (by decide)⟩

/-! ## Hasher lemmas -/

/-- A digest produced by the hasher is always identifiable. -/
theorem get_password_hash_identifiable (p : String) :
    identifiableDigest (get_password_hash p) = true := by
  simp [identifiableDigest, get_password_hash, List.isPrefixOf_iff_prefix,
    List.prefix_append]

/-- The fixed-salt hash model is injective on plaintexts. -/
theorem get_password_hash_inj {p q : String}
    (h : get_password_hash p = get_password_hash q) : p = q := by
  unfold get_password_hash at h
  have hd : bcryptMarker ++ p.data = bcryptMarker ++ q.data := congrArg String.data h
  have hpq : p.data = q.data := List.append_cancel_left hd
  cases p; cases q; exact congrArg String.mk hpq

/-- Verifying a password against its own digest succeeds. -/
theorem verify_password_hash_self (p : String) :
    verify_password p (get_password_hash p) = .ok true := by
  simp [verify_password, get_password_hash_identifiable]

/-- Verifying a password against the digest of a different password returns
false (not an error). -/
theorem verify_password_hash_ne (plain q : String) (h : plain ≠ q) :
    verify_password plain (get_password_hash q) = .ok false := by
  simp only [verify_password, get_password_hash_identifiable, if_true]
  have : get_password_hash q ≠ get_password_hash plain :=
    fun he => h (get_password_hash_inj he).symm
  simp [this]

/-! ## Claim C9: verify on malformed digests (corrected) -/

/-- C9 counterexample. The claim says `verify` returns false and never
raises on a malformed digest; in fact the underlying passlib context
raises `UnknownHashError` on a string it cannot identify as a digest, and
`Hash.verify_password` does not catch it: at plaintext "pw" and malformed
digest "xyz" the outcome is the error, not false. -/
theorem verify_password_malformed_raises :
    verify_password "pw" "xyz" = .error .unknownHash ∧
    verify_password "pw" "xyz" ≠ .ok false := by
  refine ⟨rfl, fun h => ?_⟩
  have h2 : (Except.error HashError.unknownHash : Except HashError Bool) = .ok false :=
    (rfl : verify_password "pw" "xyz" = .error .unknownHash).symm.trans h
  exact Except.noConfusion h2

/-- C9 (amended). For every plaintext: a malformed (unidentifiable) digest
makes `verify_password` surface the passlib `UnknownHashError` rather than
return false; false is returned exactly for identifiable digests of a
different password, and true for the digest of the same password. -/
theorem verify_password_amended (plain digest q : String) :
    (identifiableDigest digest = false →
      verify_password plain digest = .error .unknownHash) ∧
    (q ≠ plain → verify_password plain (get_password_hash q) = .ok false) ∧
    verify_password plain (get_password_hash plain) = .ok true := by
  refine ⟨?_, ?_, verify_password_hash_self plain⟩
  · intro h
    simp [verify_password, h]
  · intro h
    exact verify_password_hash_ne plain q (Ne.symm h)

/-- Witness for C9 (amended) at concrete strings. -/
theorem verify_password_amended_witness :
    verify_password "pw" "zzz" = .error .unknownHash ∧
    verify_password "pw" (get_password_hash "other") = .ok false :=
  ⟨(verify_password_amended "pw" "zzz" "other").1 (by decide),
   (verify_password_amended "pw" "zzz" "other").2.1 (by decide)⟩

/-! ## Claim C3: cache-hit login bypasses the store and the confirmed flag -/

/-- C3. When the User Cache holds a live entry for the request email and
the request password verifies against the cached hash, the login route
issues a fresh access token, performs no relational-store query, leaves
the cache unchanged, and its whole outcome is independent of the store
contents — in particular it succeeds even when the stored identity has
`confirmed = false`, since the confirmed flag lives only in the store. -/
theorem login_cache_hit_no_store (body : UserLogin) (db : DB) (cache : Cache)
    (now : Nat) (s : Settings) (cu : CacheValue)
    (hhit : cacheGet cache ("user:" ++ body.email) now = some cu)
    (hpw : cu.hashed_password = some (get_password_hash body.password)) :
    (login_user body db cache now s).result =
      .ok ⟨create_access_token cu.username none now s, "bearer"⟩ ∧
    (login_user body db cache now s).queries = [] ∧
    (login_user body db cache now s).cache = cache ∧
    ∀ db2 : DB, login_user body db2 cache now s = login_user body db cache now s := by
  have hred : ∀ dbx : DB, login_user body dbx cache now s =
      ⟨.ok ⟨create_access_token cu.username none now s, "bearer"⟩, cache, []⟩ := by
    intro dbx
    simp [login_user, hhit, hpw, verify_password_hash_self]
  refine ⟨?_, ?_, ?_, ?_⟩ <;> simp [hred]

/-- Witness for C3: a cached alice with confirmed = false in the store
still logs in from the cache. -/
theorem login_cache_hit_no_store_witness :
    let s : Settings := ⟨"sec", "HS256", 3600, 900⟩
    let cu : CacheValue :=
      ⟨none, "alice", "alice@x.com", some (get_password_hash "pw")⟩
    let cache : Cache := [⟨"user:alice@x.com", cu, 3600⟩]
    let db : DB :=
      ⟨[⟨1, "alice", "alice@x.com", get_password_hash "pw", none, false, .USER⟩], []⟩
    (login_user ⟨"alice@x.com", "pw"⟩ db cache 10 s).result =
      .ok ⟨create_access_token "alice" none 10 s, "bearer"⟩ ∧
    (login_user ⟨"alice@x.com", "pw"⟩ db cache 10 s).queries = [] := by
  intro s cu cache db
  have h := login_cache_hit_no_store ⟨"alice@x.com", "pw"⟩ db cache 10 s cu
    (by decide) rfl
  exact ⟨h.1, h.2.1⟩

/-! ## Claim C4: cold-path login outcomes (corrected) -/

/-- C4 counterexample. The claim says a cache-miss login whose password
does not verify is rejected with the wrong-password error; but the source
checks the confirmed flag first, so a present-but-unconfirmed user with a
wrong password gets the not-authorized rejection instead, whose detail is
a different message. -/
theorem login_cold_unconfirmed_wrong_password :
    let s : Settings := ⟨"sec", "HS256", 3600, 900⟩
    let u : User :=
      ⟨1, "bob", "bob@x.com", get_password_hash "right", none, false, .USER⟩
    (login_user ⟨"bob@x.com", "wrong"⟩ ⟨[u], []⟩ [] 0 s).result =
      .error ⟨401, API_ERROR_USER_NOT_AUTHORIZED⟩ ∧
    API_ERROR_USER_NOT_AUTHORIZED ≠ API_ERROR_WRONG_PASSWORD := by
  exact ⟨rfl, by decide⟩

/-- C4 (amended). On a cache miss the login route queries the store by
email exactly once and then: rejects with the not-authorized error when
the identity exists but `confirmed = false` — this check precedes password
verification, so it fires regardless of the password; rejects with the
wrong-password error when the identity is absent, or when it is present
and confirmed but the password does not verify against the stored hash;
and on a confirmed identity with a matching password it caches the
snapshot (username, email, stored hash) under `user:<email>` for 3600
seconds and returns a fresh access token. -/
theorem login_cold_path_amended (body : UserLogin) (db : DB) (cache : Cache)
    (now : Nat) (s : Settings)
    (hmiss : cacheGet cache ("user:" ++ body.email) now = none) :
    (get_user_by_email body.email db = none →
      login_user body db cache now s =
        ⟨.error ⟨401, API_ERROR_WRONG_PASSWORD⟩, cache, [.byEmail body.email]⟩) ∧
    (∀ u, get_user_by_email body.email db = some u → u.confirmed = false →
      login_user body db cache now s =
        ⟨.error ⟨401, API_ERROR_USER_NOT_AUTHORIZED⟩, cache, [.byEmail body.email]⟩) ∧
    (∀ u pw0, get_user_by_email body.email db = some u → u.confirmed = true →
      u.hashed_password = get_password_hash pw0 → body.password ≠ pw0 →
      login_user body db cache now s =
        ⟨.error ⟨401, API_ERROR_WRONG_PASSWORD⟩, cache, [.byEmail body.email]⟩) ∧
    (∀ u, get_user_by_email body.email db = some u → u.confirmed = true →
      u.hashed_password = get_password_hash body.password →
      login_user body db cache now s =
        ⟨.ok ⟨create_access_token u.username none now s, "bearer"⟩,
          cacheSetex cache ("user:" ++ u.email) 3600
            ⟨none, u.username, u.email, some u.hashed_password⟩ now,
          [.byEmail body.email]⟩) := by
  refine ⟨?_, ?_, ?_, ?_⟩
  · intro habs
    simp [login_user, hmiss, habs]
  · intro u hu hconf
    simp [login_user, hmiss, hu, hconf]
  · intro u pw0 hu hconf hhash hne
    simp [login_user, hmiss, hu, hconf, hhash, verify_password_hash_ne _ _ hne]
  · intro u hu hconf hhash
    simp [login_user, hmiss, hu, hconf, hhash, verify_password_hash_self]

/-- Witness for C4 (amended): the unconfirmed branch and the success
branch at concrete stores. -/
theorem login_cold_path_amended_witness :
    let s : Settings := ⟨"sec", "HS256", 3600, 900⟩
    let ub : User :=
      ⟨1, "bob", "bob@x.com", get_password_hash "right", none, false, .USER⟩
    let ua : User :=
      ⟨2, "ann", "ann@x.com", get_password_hash "pw", none, true, .USER⟩
    (login_user ⟨"bob@x.com", "wrong"⟩ ⟨[ub], []⟩ [] 0 s =
      ⟨.error ⟨401, API_ERROR_USER_NOT_AUTHORIZED⟩, [], [.byEmail "bob@x.com"]⟩) ∧
    (login_user ⟨"ann@x.com", "pw"⟩ ⟨[ua], []⟩ [] 0 s =
      ⟨.ok ⟨create_access_token "ann" none 0 s, "bearer"⟩,
        cacheSetex [] "user:ann@x.com" 3600
          ⟨none, "ann", "ann@x.com", some (get_password_hash "pw")⟩ 0,
        [.byEmail "ann@x.com"]⟩) := by
  intro s ub ua
  constructor
  · exact (login_cold_path_amended ⟨"bob@x.com", "wrong"⟩ ⟨[ub], []⟩ [] 0 s
      rfl).2.1 ub rfl rfl
  · exact (login_cold_path_amended ⟨"ann@x.com", "pw"⟩ ⟨[ua], []⟩ [] 0 s
      rfl).2.2.2 ua rfl rfl rfl

/-! ## Claim C5: gate identity resolution and the cache (corrected) -/

/-- C5 counterexample. The claim says a cache hit resolves the identity
without any relational-store lookup; but `get_current_user` queries the
store by username before it ever consults the cache, so even on a cache
hit one store query is performed: at a concrete store, cache and valid
token the result is the cached identity and the query list is nonempty. -/
theorem gate_cache_hit_still_queries_store :
    let s : Settings := ⟨"sec", "HS256", 3600, 900⟩
    let t : Jwt := create_access_token "alice" none 0 s
    let u : User :=
      ⟨1, "alice", "alice@x.com", get_password_hash "pw", none, true, .USER⟩
    let cu : CacheValue := ⟨some 1, "alice", "alice@x.com", none⟩
    let cache : Cache := [⟨"user:alice", cu, 3600⟩]
    (get_current_user t ⟨[u], []⟩ cache 10 s).result = .ok (.fromCache cu) ∧
    (get_current_user t ⟨[u], []⟩ cache 10 s).queries ≠ [] := by
  intro s t u cu cache
  refine ⟨rfl, fun h => ?_⟩
  have h2 : ([StoreQuery.byUsername "alice"] : List StoreQuery) = [] :=
    (rfl : (get_current_user t ⟨[u], []⟩ cache 10 s).queries =
      [StoreQuery.byUsername "alice"]).symm.trans h
  exact List.noConfusion h2

/-- C5 (amended). For a bearer token that decodes to a subject present in
the store: when the User Cache holds a live entry for that subject the
gate returns the cached identity and leaves the cache unchanged, but it
still performs exactly one store lookup (an existence check by username
executed before the cache is consulted); on a cache miss it performs two
store lookups and caches the snapshot. The store is therefore consulted on
every resolution; a cache hit only avoids the second lookup and the cache
write. -/
theorem gate_cache_hit_amended (t : Jwt) (db : DB) (cache : Cache)
    (now : Nat) (s : Settings) (username : String) (u : User)
    (hdec : decode_access_token t now s = some username)
    (hstore : get_user_by_username username db = some u) :
    (∀ cu, cacheGet cache ("user:" ++ username) now = some cu →
      get_current_user t db cache now s =
        ⟨.ok (.fromCache cu), cache, [.byUsername username]⟩) ∧
    (cacheGet cache ("user:" ++ username) now = none →
      get_current_user t db cache now s =
        ⟨.ok (.fromStore u),
          cacheSetex cache ("user:" ++ username) 3600
            ⟨some u.id, u.username, u.email, none⟩ now,
          [.byUsername username, .byUsername username]⟩) := by
  constructor
  · intro cu hhit
    simp [get_current_user, hdec, hstore, hhit]
  · intro hmiss
    simp [get_current_user, hdec, hstore, hmiss]

/-- Witness for C5 (amended) at a concrete token, store and cache. -/
theorem gate_cache_hit_amended_witness :
    let s : Settings := ⟨"sec", "HS256", 3600, 900⟩
    let t : Jwt := create_access_token "alice" none 0 s
    let u : User :=
      ⟨1, "alice", "alice@x.com", get_password_hash "pw", none, true, .USER⟩
    let cu : CacheValue := ⟨some 1, "alice", "alice@x.com", none⟩
    (get_current_user t ⟨[u], []⟩ [⟨"user:alice", cu, 3600⟩] 10 s =
      ⟨.ok (.fromCache cu), [⟨"user:alice", cu, 3600⟩], [.byUsername "alice"]⟩) ∧
    (get_current_user t ⟨[u], []⟩ [] 10 s =
      ⟨.ok (.fromStore u),
        cacheSetex [] "user:alice" 3600 ⟨some 1, "alice", "alice@x.com", none⟩ 10,
        [.byUsername "alice", .byUsername "alice"]⟩) := by
  intro s t u cu
  constructor
  · exact (gate_cache_hit_amended t ⟨[u], []⟩ [⟨"user:alice", cu, 3600⟩] 10 s
      "alice" u rfl rfl).1 cu rfl
  · exact (gate_cache_hit_amended t ⟨[u], []⟩ [] 10 s "alice" u rfl rfl).2 rfl

/-! ## Claim C6: password reset leaves the cache stale -/

/-- C6. A password reset for an identity with a live cache entry rewrites
only the store row: the cache after the reset is exactly the cache before
it. Consequently, at any later time at which the entry still hits, a
cache-hit login with the old password still succeeds (issuing a fresh
token against the stale cached hash) and a login with the new password is
rejected as wrong-password against that same cached hash. -/
theorem reset_password_cache_stale (tok : Jwt) (email oldPw newPw : String)
    (db : DB) (cache : Cache) (now later : Nat) (s : Settings)
    (cu : CacheValue) (u : User)
    (htok : verify_reset_token tok now s = some email)
    (hu : get_user_by_email email db = some u)
    (hne : newPw ≠ oldPw)
    (hhit : cacheGet cache ("user:" ++ email) later = some cu)
    (hcu : cu.hashed_password = some (get_password_hash oldPw)) :
    (reset_password ⟨tok, newPw⟩ db cache now s).cache = cache ∧
    (reset_password ⟨tok, newPw⟩ db cache now s).result =
      .ok "Password successfully reset" ∧
    (login_user ⟨email, oldPw⟩ (reset_password ⟨tok, newPw⟩ db cache now s).db
        (reset_password ⟨tok, newPw⟩ db cache now s).cache later s).result =
      .ok ⟨create_access_token cu.username none later s, "bearer"⟩ ∧
    (login_user ⟨email, newPw⟩ (reset_password ⟨tok, newPw⟩ db cache now s).db
        (reset_password ⟨tok, newPw⟩ db cache now s).cache later s).result =
      .error ⟨401, API_ERROR_WRONG_PASSWORD⟩ := by
  have hout : reset_password ⟨tok, newPw⟩ db cache now s =
      ⟨.ok "Password successfully reset",
        update_password email (get_password_hash newPw) db, cache,
        [.byEmail email]⟩ := by
    simp [reset_password, htok, hu]
  refine ⟨by simp [hout], by simp [hout], ?_, ?_⟩
  · rw [hout]
    simp [login_user, hhit, hcu, verify_password_hash_self]
  · rw [hout]
    simp [login_user, hhit, hcu, verify_password_hash_ne _ _ hne]

/-- Witness for C6 at a concrete identity, cache and reset token. -/
theorem reset_password_cache_stale_witness :
    let s : Settings := ⟨"sec", "HS256", 3600, 900⟩
    let tok : Jwt := create_reset_token "ann@x.com" 0 s
    let u : User :=
      ⟨2, "ann", "ann@x.com", get_password_hash "old", none, true, .USER⟩
    let cu : CacheValue :=
      ⟨none, "ann", "ann@x.com", some (get_password_hash "old")⟩
    let cache : Cache := [⟨"user:ann@x.com", cu, 3600⟩]
    (reset_password ⟨tok, "new"⟩ ⟨[u], []⟩ cache 10 s).cache = cache ∧
    (login_user ⟨"ann@x.com", "old"⟩
        (reset_password ⟨tok, "new"⟩ ⟨[u], []⟩ cache 10 s).db
        (reset_password ⟨tok, "new"⟩ ⟨[u], []⟩ cache 10 s).cache 100 s).result =
      .ok ⟨create_access_token "ann" none 100 s, "bearer"⟩ ∧
    (login_user ⟨"ann@x.com", "new"⟩
        (reset_password ⟨tok, "new"⟩ ⟨[u], []⟩ cache 10 s).db
        (reset_password ⟨tok, "new"⟩ ⟨[u], []⟩ cache 10 s).cache 100 s).result =
      .error ⟨401, API_ERROR_WRONG_PASSWORD⟩ := by
  intro s tok u cu cache
  have h := reset_password_cache_stale tok "ann@x.com" "old" "new"
    ⟨[u], []⟩ cache 10 100 s cu u rfl rfl (by decide) rfl rfl
  exact ⟨h.1, h.2.2.1, h.2.2.2⟩

/-! ## Claim C8: admin-only elevation -/

/-- C8. An authenticated identity reaching the admin-only dependency is
rejected with a 403 (an outcome distinct from the 401 used for credential
failures) exactly when its role is not ADMIN, and is passed through
unchanged when its role is ADMIN. -/
theorem admin_gate_forbidden_or_pass (u : User) :
    (u.role ≠ UserRole.ADMIN →
      get_current_admin_user u = .error ⟨403, "Недостатньо прав доступу"⟩ ∧
      (403 : Nat) ≠ 401) ∧
    (u.role = UserRole.ADMIN → get_current_admin_user u = .ok u) := by
  constructor
  · intro h
    exact ⟨by simp [get_current_admin_user, h], by decide⟩
  · intro h
    simp [get_current_admin_user, h]

/-- Witness for C8: a USER identity is rejected 403, an ADMIN identity
passes through unchanged. -/
theorem admin_gate_forbidden_or_pass_witness :
    let plain : User :=
      ⟨1, "alice", "alice@x.com", "h", none, true, .USER⟩
    let admin : User :=
      ⟨2, "root", "root@x.com", "h", none, true, .ADMIN⟩
    get_current_admin_user plain = .error ⟨403, "Недостатньо прав доступу"⟩ ∧
    get_current_admin_user admin = .ok admin := by
  intro plain admin
  exact ⟨((admin_gate_forbidden_or_pass plain).1 (by decide)).1,
    (admin_gate_forbidden_or_pass admin).2 rfl⟩

/-! ## Claim C10: request_email crashes on an unknown email -/

/-- C10. When no stored identity carries the requested email, the
request-email route dereferences the `confirmed` attribute of `None`
before testing for absence, so it surfaces an unhandled attribute error (a
500) and never returns a typed message; conversely any typed (ok) outcome
implies a matching identity exists in the store. -/
theorem request_email_crashes_on_absent_user (email : String) (db : DB) :
    ((∀ u ∈ db.users, u.email ≠ email) →
      request_email email db = .error .attributeErrorOnNone) ∧
    (∀ m, request_email email db = .ok m →
      ∃ u ∈ db.users, u.email = email) := by
  constructor
  · intro habs
    have hnone : get_user_by_email email db = none := by
      unfold get_user_by_email
      apply List.find?_eq_none.mpr
      intro u hu
      simpa using habs u hu
    simp [request_email, hnone]
  · intro m hm
    unfold request_email at hm
    rcases hfind : get_user_by_email email db with _ | u
    · rw [hfind] at hm
      exact absurd hm (by simp)
    · have hmem := List.mem_of_find?_eq_some hfind
      have heq : u.email = email := by
        have := List.find?_some hfind
        simpa using this
      exact ⟨u, hmem, heq⟩

/-- Witness for C10: the empty store crashes, a store holding the user
answers with a typed message. -/
theorem request_email_crashes_on_absent_user_witness :
    request_email "ghost@x.com" ⟨[], []⟩ = .error .attributeErrorOnNone ∧
    (∃ u ∈ (⟨[⟨1, "ann", "ann@x.com", "h", none, true, .USER⟩], []⟩ : DB).users,
      u.email = "ann@x.com") := by
  constructor
  · exact (request_email_crashes_on_absent_user "ghost@x.com" ⟨[], []⟩).1
      (by intro u hu; exact absurd hu (by simp))
  · exact (request_email_crashes_on_absent_user "ann@x.com"
      ⟨[⟨1, "ann", "ann@x.com", "h", none, true, .USER⟩], []⟩).2
      ("Ваша електронна пошта вже підтверджена", false) rfl

/-- Every month has at least one day. -/
theorem daysInMonth_pos (y m : Nat) : 1 ≤ daysInMonth y m := by
  unfold daysInMonth
  split
  · split <;> omega
  · split <;> omega

/-- The day after a well-formed date is well-formed. -/
theorem nextDay_valid (d : Date) (h : ValidDate d) : ValidDate (nextDay d) := by
  obtain ⟨h1, h2, h3, h4⟩ := h
  unfold nextDay
  split
  · next hlt => exact ⟨h1, h2, Nat.succ_le_succ (Nat.zero_le _), hlt⟩
  · split
    · next h12 =>
        exact ⟨Nat.succ_le_succ (Nat.zero_le _), h12, Nat.le_refl 1,
          daysInMonth_pos _ _⟩
    · have hx : (1 : Nat) ≤ 12 := by decide
      exact ⟨Nat.le_refl 1, hx, Nat.le_refl 1, daysInMonth_pos _ _⟩

/-- Adding days preserves well-formedness. -/
theorem addDays_valid (d : Date) (n : Nat) (h : ValidDate d) :
    ValidDate (addDays d n) := by
  induction n with
  | zero => exact h
  | succ k ih => exact nextDay_valid _ ih

/-- The day after a well-formed date either stays in the same month with
the day incremented, or starts a different month at day 1. -/
theorem nextDay_shape (d : Date) (h : ValidDate d) :
    ((nextDay d).month = d.month ∧ (nextDay d).day = d.day + 1) ∨
    ((nextDay d).day = 1 ∧ (nextDay d).month ≠ d.month) := by
  obtain ⟨h1, h2, h3, h4⟩ := h
  unfold nextDay
  split
  · exact Or.inl ⟨rfl, rfl⟩
  · split
    · refine Or.inr ⟨rfl, fun he => ?_⟩
      have h5 : d.month + 1 = d.month := he
      omega
    · next hno h12 =>
        refine Or.inr ⟨rfl, fun he => ?_⟩
        have h5 : (1 : Nat) = d.month := he
        omega

/-! ## Claim C7: birthday query semantics (corrected) -/

/-- C7 counterexample. The claim says a contact whose birthday month/day is
one day beyond `today + days` is excluded; but the first range condition
(same month as today, day at or after today) keeps the whole remaining
current month in the result: with today = 2024-03-10 and days = 0, a
contact with birthday March 11 — one day beyond — is returned. -/
theorem upcoming_birthdays_beyond_included :
    let a : User := ⟨1, "alice", "alice@x.com", "h", none, true, .USER⟩
    let c : Contact := ⟨10, "Jo", "Doe", "jo@x.com", "1", ⟨1990, 3, 11⟩, none, 1⟩
    let db : DB := ⟨[a], [c]⟩
    let today : Date := ⟨2024, 3, 10⟩
    (c.birthday.month = (nextDay (addDays today 0)).month ∧
     c.birthday.day = (nextDay (addDays today 0)).day) ∧
    c ∈ upcoming_birthdays 0 a today db := by
  intro a c db today
  refine ⟨⟨rfl, rfl⟩, ?_⟩
  have he : upcoming_birthdays 0 a today db = [c] := rfl
  rw [he]
  exact List.mem_singleton.mpr rfl

/-- C7 (amended). For every horizon and every contact of the user: a
contact whose birthday month/day equals today is included for `days = 0`;
a contact whose birthday month/day equals exactly `today + days` is
included; and a contact whose birthday month/day is one day beyond
`today + days` is in the result exactly when that day still falls in
today's month at or after today's day (the tail of the current month kept
by the first range condition) — it is excluded only otherwise. -/
theorem upcoming_birthdays_amended (days : Nat) (user : User) (today : Date)
    (db : DB) (c : Contact)
    (hvalid : ValidDate today)
    (hmem : c ∈ db.contacts)
    (hown : c.user_id = user.id) :
    ((days = 0 ∧ c.birthday.month = today.month ∧ c.birthday.day = today.day) →
      c ∈ upcoming_birthdays days user today db) ∧
    ((c.birthday.month = (addDays today days).month ∧
      c.birthday.day = (addDays today days).day) →
      c ∈ upcoming_birthdays days user today db) ∧
    ((c.birthday.month = (nextDay (addDays today days)).month ∧
      c.birthday.day = (nextDay (addDays today days)).day) →
      (c ∈ upcoming_birthdays days user today db ↔
        c.birthday.month = today.month ∧ today.day ≤ c.birthday.day)) := by
  have hmemiff : c ∈ upcoming_birthdays days user today db ↔
      ((c.birthday.month == today.month && decide (today.day ≤ c.birthday.day)) ||
       (c.birthday.month == (addDays today days).month &&
        decide (c.birthday.day ≤ (addDays today days).day))) = true := by
    simp only [upcoming_birthdays]
    rw [List.mem_filter]
    simp [hmem, hown]
  refine ⟨?_, ?_, ?_⟩
  · rintro ⟨hd0, hm, hdy⟩
    subst hd0
    rw [hmemiff]
    simp [hm, hdy]
  · rintro ⟨hm, hd⟩
    rw [hmemiff]
    simp [hm, hd]
  · rintro ⟨hbm, hbd⟩
    have hf : ValidDate (addDays today days) := addDays_valid today days hvalid
    have hsecond : (c.birthday.month == (addDays today days).month &&
        decide (c.birthday.day ≤ (addDays today days).day)) = false := by
      rcases nextDay_shape _ hf with ⟨hm, hd⟩ | ⟨hd1, hmne⟩
      · have hx : c.birthday.day = (addDays today days).day + 1 := by
          rw [hbd, hd]
        simp [hx]
      · have hx : c.birthday.month ≠ (addDays today days).month := by
          rw [hbm]; exact hmne
        simp [hx]
    rw [hmemiff, hsecond]
    simp

/-- Witness for C7 (amended): with today = 2024-12-30 and a 5-day horizon
(reaching 2025-01-04), a contact with birthday January 4 is included, and
a contact with birthday January 5 — one day beyond — is excluded because
January is neither today's month nor reachable by the second condition. -/
theorem upcoming_birthdays_amended_witness :
    (⟨10, "Jo", "Doe", "jo@x.com", "1", ⟨1990, 1, 4⟩, none, 1⟩ : Contact) ∈
      upcoming_birthdays 5 ⟨1, "alice", "alice@x.com", "h", none, true, .USER⟩
        ⟨2024, 12, 30⟩
        ⟨[⟨1, "alice", "alice@x.com", "h", none, true, .USER⟩],
         [⟨10, "Jo", "Doe", "jo@x.com", "1", ⟨1990, 1, 4⟩, none, 1⟩,
          ⟨11, "Al", "Poe", "al@x.com", "2", ⟨1990, 1, 5⟩, none, 1⟩]⟩ ∧
    (⟨11, "Al", "Poe", "al@x.com", "2", ⟨1990, 1, 5⟩, none, 1⟩ : Contact) ∉
      upcoming_birthdays 5 ⟨1, "alice", "alice@x.com", "h", none, true, .USER⟩
        ⟨2024, 12, 30⟩
        ⟨[⟨1, "alice", "alice@x.com", "h", none, true, .USER⟩],
         [⟨10, "Jo", "Doe", "jo@x.com", "1", ⟨1990, 1, 4⟩, none, 1⟩,
          ⟨11, "Al", "Poe", "al@x.com", "2", ⟨1990, 1, 5⟩, none, 1⟩]⟩ := by
  constructor
  · exact (upcoming_birthdays_amended 5
      ⟨1, "alice", "alice@x.com", "h", none, true, .USER⟩ ⟨2024, 12, 30⟩
      ⟨[⟨1, "alice", "alice@x.com", "h", none, true, .USER⟩],
       [⟨10, "Jo", "Doe", "jo@x.com", "1", ⟨1990, 1, 4⟩, none, 1⟩,
        ⟨11, "Al", "Poe", "al@x.com", "2", ⟨1990, 1, 5⟩, none, 1⟩]⟩
      ⟨10, "Jo", "Doe", "jo@x.com", "1", ⟨1990, 1, 4⟩, none, 1⟩
      (by refine ⟨?_, ?_, ?_, ?_⟩ <;> decide)
      (List.mem_cons_self _ _) rfl).2.1 ⟨rfl, rfl⟩
  · intro hin
    have h := ((upcoming_birthdays_amended 5
      ⟨1, "alice", "alice@x.com", "h", none, true, .USER⟩ ⟨2024, 12, 30⟩
      ⟨[⟨1, "alice", "alice@x.com", "h", none, true, .USER⟩],
       [⟨10, "Jo", "Doe", "jo@x.com", "1", ⟨1990, 1, 4⟩, none, 1⟩,
        ⟨11, "Al", "Poe", "al@x.com", "2", ⟨1990, 1, 5⟩, none, 1⟩]⟩
      ⟨11, "Al", "Poe", "al@x.com", "2", ⟨1990, 1, 5⟩, none, 1⟩
      (by refine ⟨?_, ?_, ?_, ?_⟩ <;> decide)
      (List.mem_cons_of_mem _ (List.mem_cons_self _ _)) rfl).2.2
      ⟨rfl, rfl⟩).mp hin
    exact absurd h.1 (by decide)

end ContactsApp
